import Mathlib

set_option autoImplicit false

/-! Shallow embedding of the IFC fragment converter HTTP service.

The repository has two variants of the same server: `server.js` (hash-keyed
cache, multipart convert endpoint), embedded here with `srv` prefixes, and a
refactored variant (identity-keyed cache, URL-fetching convert endpoint),
embedded with `p0` prefixes. The cache directory is modelled as an association
list from file path to byte contents; the external collaborators — the SHA-256
digest from the node crypto module, the IFC conversion engine, and `fetch` —
are deterministic oracles passed to the handlers as parameters. Each handler is
a pure function from the request and the cache state to the HTTP response, the
new cache state, and observables recording which collaborator calls happened. -/

/-- File contents, as a list of bytes. -/
abbrev Bytes := List Nat

/-- The cache directory: an association list from file path to contents. -/
abbrev FS := List (String × Bytes)

/-- Node `fs.stat`, as used by the handlers with `.catch(() => null)`: `some`
contents when the path exists, `none` otherwise; absence is a value, never an
error. -/
def statFile : FS → String → Option Bytes
  | [], _ => none
  | (q, d) :: rest, p => if q = p then some d else statFile rest p

/-- Node `fs.writeFile`: replaces the contents stored at `p`, creating the
file when absent. -/
def writeFile : FS → String → Bytes → FS
  | [], p, d => [(p, d)]
  | (q, e) :: rest, p, d =>
    if q = p then (p, d) :: rest else (q, e) :: writeFile rest p d

/-- Node `path.join` restricted to the two-component form the handlers use. -/
def pathJoin (dir name : String) : String := dir ++ "/" ++ name

/-- The cache directory path, `path.join(__dirname, "public", "fragments")`;
the deployment-fixed `__dirname` prefix is elided. -/
def FRAGMENTS_DIR : String := "public/fragments"

/-- The JSON envelope sent by every route via `res.status(...).json({...})`;
fields absent from the JSON object are `none`, and `res.json` without
`.status` sends 200. -/
structure Response where
  status : Nat := 200
  success : Bool
  fragUrl : Option String := none
  jsonUrl : Option String := none
  error : Option String := none
  deriving Repr, DecidableEq

/-- Result of a check or upload request: the response and the cache directory
afterward. -/
structure HandlerResult where
  resp : Response
  fs : FS
  deriving Repr, DecidableEq

/-- `getFileHash` from `server.js`:
`createHash("sha256").update(filename).digest("hex")`. The digest function
itself belongs to the node crypto collaborator and is passed in as
`sha256hex`. -/
def getFileHash (sha256hex : String → String) (filename : String) : String :=
  sha256hex filename

/-- The hash and the two target paths a `server.js` handler computes from the
`:filename` route parameter. -/
structure KeyPaths where
  hash : String
  fragPath : String
  jsonPath : String
  deriving Repr, DecidableEq

/-- The `hash`, `fragPath`, `jsonPath` block at the top of the GET
`/api/fragments/:filename` handler in `server.js`. -/
def srvCheckPaths (sha256hex : String → String) (filename : String) : KeyPaths :=
  let hash := getFileHash sha256hex filename
  { hash := hash
    fragPath := pathJoin FRAGMENTS_DIR (hash ++ ".frag")
    jsonPath := pathJoin FRAGMENTS_DIR (hash ++ ".json") }

/-- The `hash`, `fragPath`, `jsonPath` block at the top of the POST
`/api/fragments/:filename` handler in `server.js` (the code is repeated
verbatim in each handler). -/
def srvUploadPaths (sha256hex : String → String) (filename : String) : KeyPaths :=
  let hash := getFileHash sha256hex filename
  { hash := hash
    fragPath := pathJoin FRAGMENTS_DIR (hash ++ ".frag")
    jsonPath := pathJoin FRAGMENTS_DIR (hash ++ ".json") }

/-- The `hash`, `fragPath`, `jsonPath` block at the top of the POST
`/api/convert-ifc/:filename` handler in `server.js`. -/
def srvConvertPaths (sha256hex : String → String) (filename : String) : KeyPaths :=
  let hash := getFileHash sha256hex filename
  { hash := hash
    fragPath := pathJoin FRAGMENTS_DIR (hash ++ ".frag")
    jsonPath := pathJoin FRAGMENTS_DIR (hash ++ ".json") }

/-- GET `/api/fragments/:filename` in `server.js`: stat both files and return
their URLs only when both exist, `{success:false}` with status 200 otherwise.
The handler performs no writes. -/
def srvGetFragments (sha256hex : String → String) (fs : FS) (filename : String) :
    HandlerResult :=
  let p := srvCheckPaths sha256hex filename
  let fragExists := (statFile fs p.fragPath).isSome
  let jsonExists := (statFile fs p.jsonPath).isSome
  if fragExists && jsonExists then
    { resp := { status := 200, success := true
                fragUrl := some ("/fragments/" ++ p.hash ++ ".frag")
                jsonUrl := some ("/fragments/" ++ p.hash ++ ".json") }
      fs := fs }
  else
    { resp := { status := 200, success := false }, fs := fs }

/-- The multipart payload of an upload request: `req.files` may be absent
altogether, and each of `fragFile`, `jsonFile` may be absent within it. -/
structure UploadFiles where
  fragFile : Option Bytes
  jsonFile : Option Bytes
  deriving Repr, DecidableEq

/-- POST `/api/fragments/:filename` in `server.js`: reject with 400 when
`req.files`, `req.files.fragFile` or `req.files.jsonFile` is missing;
otherwise write both files verbatim and return their URLs. -/
def srvPostFragments (sha256hex : String → String) (fs : FS) (filename : String)
    (files : Option UploadFiles) : HandlerResult :=
  let p := srvUploadPaths sha256hex filename
  match files with
  | none =>
    { resp := { status := 400, success := false, error := some ("Missing files") }
      fs := fs }
  | some f =>
    match f.fragFile, f.jsonFile with
    | none, _ =>
      { resp := { status := 400, success := false, error := some ("Missing files") }
        fs := fs }
    | _, none =>
      { resp := { status := 400, success := false, error := some ("Missing files") }
        fs := fs }
    | some fragData, some jsonData =>
      let fs1 := writeFile fs p.fragPath fragData
      let fs2 := writeFile fs1 p.jsonPath jsonData
      { resp := { status := 200, success := true
                  fragUrl := some ("/fragments/" ++ p.hash ++ ".frag")
                  jsonUrl := some ("/fragments/" ++ p.hash ++ ".json") }
        fs := fs2 }

/-- The external conversion engine (`@thatopen/components` plus `web-ifc`) as a
per-invocation oracle indexed by the raw IFC bytes it is given: `loadExc d`
(resp. `exportExc d`) is `some msg` when `fragmentIfcLoader.load` (resp.
`fragments.export`) throws on input `d`; `fragData d` is the exported fragment
payload and `propsJson d` the `JSON.stringify` of
`model.getLocalProperties()`. -/
structure Engine where
  loadExc : Bytes → Option String
  exportExc : Bytes → Option String
  fragData : Bytes → Bytes
  propsJson : Bytes → String

/-- The bytes written when a handler stores a JSON string with
`fs.writeFile(jsonPath, JSON.stringify(...))`. -/
def strBytes (s : String) : Bytes := s.data.map Char.toNat

/-- Outcome of a convert request: the response, the cache directory afterward,
and observables on the collaborators — whether a source fetch was attempted,
whether `initIfcLoader` ran, whether `fragmentIfcLoader.load` was invoked, and
whether `fragments.dispose()` / `components.dispose()` were called. -/
structure ConvResult where
  resp : Response
  fs : FS
  fetchAttempted : Bool
  engineInit : Bool
  loadInvoked : Bool
  fragmentsDisposed : Bool
  componentsDisposed : Bool
  deriving Repr, DecidableEq

/-- A convert outcome on which no collaborator was touched and the cache is
`fs`: the shape of every early return in both convert handlers. -/
def pureConv (resp : Response) (fs : FS) : ConvResult :=
  { resp := resp, fs := fs, fetchAttempted := false, engineInit := false
    loadInvoked := false, fragmentsDisposed := false, componentsDisposed := false }

/-- POST `/api/convert-ifc/:filename` in `server.js`. In order: stat both
target files and short-circuit with their URLs when both exist; reject with
400 when `req.files` or `req.files.ifcFile` is missing; otherwise run
`initIfcLoader`, `load`, `export`, write both files and dispose. A throw from
`load` or `export` lands in the catch handler, which answers 500 without
writing and without calling `dispose`. -/
def srvConvertIfc (sha256hex : String → String) (eng : Engine) (fs : FS)
    (filename : String) (files : Option (Option Bytes)) : ConvResult :=
  let p := srvConvertPaths sha256hex filename
  if (statFile fs p.fragPath).isSome && (statFile fs p.jsonPath).isSome then
    pureConv
      { status := 200, success := true
        fragUrl := some ("/fragments/" ++ p.hash ++ ".frag")
        jsonUrl := some ("/fragments/" ++ p.hash ++ ".json") } fs
  else
    match files with
    | none =>
      pureConv { status := 400, success := false, error := some ("Missing IFC file") } fs
    | some none =>
      pureConv { status := 400, success := false, error := some ("Missing IFC file") } fs
    | some (some ifcData) =>
      match eng.loadExc ifcData with
      | some _ =>
        { pureConv
            { status := 500, success := false
              error := some ("Server error during IFC conversion") } fs with
          engineInit := true, loadInvoked := true }
      | none =>
        match eng.exportExc ifcData with
        | some _ =>
          { pureConv
              { status := 500, success := false
                error := some ("Server error during IFC conversion") } fs with
            engineInit := true, loadInvoked := true }
        | none =>
          let fs1 := writeFile fs p.fragPath (eng.fragData ifcData)
          let fs2 := writeFile fs1 p.jsonPath (strBytes (eng.propsJson ifcData))
          { resp := { status := 200, success := true
                      fragUrl := some ("/fragments/" ++ p.hash ++ ".frag")
                      jsonUrl := some ("/fragments/" ++ p.hash ++ ".json") }
            fs := fs2, fetchAttempted := false, engineInit := true, loadInvoked := true
            fragmentsDisposed := true, componentsDisposed := true }

/-- `getFilePaths` from the refactored variant: the cache key policy is the
filename itself, and the URL resolution is a pure function of it. -/
structure FilePaths where
  fragPath : String
  jsonPath : String
  fragUrl : String
  jsonUrl : String
  deriving Repr, DecidableEq

/-- `getFilePaths(filename)` from the refactored variant. -/
def getFilePaths (filename : String) : FilePaths :=
  { fragPath := pathJoin FRAGMENTS_DIR (filename ++ ".frag")
    jsonPath := pathJoin FRAGMENTS_DIR (filename ++ ".json")
    fragUrl := "/fragments/" ++ filename ++ ".frag"
    jsonUrl := "/fragments/" ++ filename ++ ".json" }

/-- `checkFilesExist(fragPath, jsonPath)` from the refactored variant: two
independent stats, each mapping not-found to a boolean rather than an
error. -/
def checkFilesExist (fs : FS) (fragPath jsonPath : String) : Bool × Bool :=
  ((statFile fs fragPath).isSome, (statFile fs jsonPath).isSome)

/-- One settled HTTP response of the `fetch` collaborator: the `ok` flag, the
`statusText`, and the body bytes. -/
structure FetchR where
  ok : Bool
  statusText : String
  data : Bytes

/-- What `fetch(url)` did: `Except.error` is a network-level rejection
carrying its message, `Except.ok` a settled response. -/
abbrev FetchOutcome := Except String FetchR

/-- `fetchIfcFile(url)` from the refactored variant: rethrows a network
rejection, throws `Failed to fetch IFC file: <statusText>` on a non-ok
status, and otherwise yields the body bytes. -/
def fetchIfcFile (fetch : FetchOutcome) : Except String Bytes :=
  match fetch with
  | .error m => .error m
  | .ok r =>
    if r.ok then .ok r.data
    else .error ("Failed to fetch IFC file: " ++ r.statusText)

/-- GET `/api/fragments/:filename` in the refactored variant: `getFilePaths`,
`checkFilesExist`, and the same both-or-absent response as `server.js`. -/
def p0GetFragments (fs : FS) (filename : String) : HandlerResult :=
  let paths := getFilePaths filename
  let ex := checkFilesExist fs paths.fragPath paths.jsonPath
  if ex.1 && ex.2 then
    { resp := { status := 200, success := true
                fragUrl := some paths.fragUrl, jsonUrl := some paths.jsonUrl }
      fs := fs }
  else
    { resp := { status := 200, success := false }, fs := fs }

/-- POST `/api/fragments/:filename` in the refactored variant: the missing
files check comes first, then both files are written (via `Promise.all`, to
two distinct paths). -/
def p0PostFragments (fs : FS) (filename : String) (files : Option UploadFiles) :
    HandlerResult :=
  match files with
  | none =>
    { resp := { status := 400, success := false, error := some ("Missing files") }
      fs := fs }
  | some f =>
    match f.fragFile, f.jsonFile with
    | none, _ =>
      { resp := { status := 400, success := false, error := some ("Missing files") }
        fs := fs }
    | _, none =>
      { resp := { status := 400, success := false, error := some ("Missing files") }
        fs := fs }
    | some fragData, some jsonData =>
      let paths := getFilePaths filename
      let fs1 := writeFile fs paths.fragPath fragData
      let fs2 := writeFile fs1 paths.jsonPath jsonData
      { resp := { status := 200, success := true
                  fragUrl := some paths.fragUrl, jsonUrl := some paths.jsonUrl }
        fs := fs2 }

/-- The JSON body of the refactored convert endpoint; `!filename || !ifcUrl`
rejects a missing field and also the falsy empty string. -/
structure ConvertBody where
  filename : Option String
  ifcUrl : Option String
  deriving Repr, DecidableEq

/-- POST `/api/convert-ifc` in the refactored variant. In order: validate the
body; `getFilePaths`; `checkFilesExist` and short-circuit when both files
exist; `fetchIfcFile(ifcUrl)`; `initIfcLoader`; `load`; `export`; write both
files (`Promise.all`, two distinct paths); dispose. Any throw lands in the
catch handler, which answers 500 with the thrown message appended to
`Server error during IFC conversion: ` and does not dispose. -/
def p0ConvertIfc (eng : Engine) (fetch : String → FetchOutcome) (fs : FS)
    (body : ConvertBody) : ConvResult :=
  match body.filename, body.ifcUrl with
  | some filename, some ifcUrl =>
    if filename = "" ∨ ifcUrl = "" then
      pureConv
        { status := 400, success := false, error := some ("Missing filename or IFC URL") } fs
    else
      let paths := getFilePaths filename
      let ex := checkFilesExist fs paths.fragPath paths.jsonPath
      if ex.1 && ex.2 then
        pureConv
          { status := 200, success := true
            fragUrl := some paths.fragUrl, jsonUrl := some paths.jsonUrl } fs
      else
        match fetchIfcFile (fetch ifcUrl) with
        | .error m =>
          { pureConv
              { status := 500, success := false
                error := some ("Server error during IFC conversion: " ++ m) } fs with
            fetchAttempted := true }
        | .ok ifcData =>
          match eng.loadExc ifcData with
          | some m =>
            { pureConv
                { status := 500, success := false
                  error := some ("Server error during IFC conversion: " ++ m) } fs with
              fetchAttempted := true, engineInit := true, loadInvoked := true }
          | none =>
            match eng.exportExc ifcData with
            | some m =>
              { pureConv
                  { status := 500, success := false
                    error := some ("Server error during IFC conversion: " ++ m) } fs with
                fetchAttempted := true, engineInit := true, loadInvoked := true }
            | none =>
              let fs1 := writeFile fs paths.fragPath (eng.fragData ifcData)
              let fs2 := writeFile fs1 paths.jsonPath (strBytes (eng.propsJson ifcData))
              { resp := { status := 200, success := true
                          fragUrl := some paths.fragUrl, jsonUrl := some paths.jsonUrl }
                fs := fs2, fetchAttempted := true, engineInit := true
                loadInvoked := true, fragmentsDisposed := true, componentsDisposed := true }
  | none, _ =>
    pureConv
      { status := 400, success := false, error := some ("Missing filename or IFC URL") } fs
  | some _, none =>
    pureConv
      { status := 400, success := false, error := some ("Missing filename or IFC URL") } fs

/-- Reading back the path just written yields the bytes just written. -/
theorem statFile_writeFile_same (fs : FS) (p : String) (d : Bytes) :
    statFile (writeFile fs p d) p = some d := by
  induction fs with
  | nil => simp [writeFile, statFile]
  | cons hd tl ih =>
    obtain ⟨q, e⟩ := hd
    by_cases h : q = p <;> simp [writeFile, statFile, h, ih]

/-- Writing one path leaves every other path unchanged. -/
theorem statFile_writeFile_ne (fs : FS) (p q : String) (d : Bytes) (h : p ≠ q) :
    statFile (writeFile fs p d) q = statFile fs q := by
  induction fs with
  | nil => simp [writeFile, statFile, h]
  | cons hd tl ih =>
    obtain ⟨r, e⟩ := hd
    by_cases hr : r = p
    · subst hr
      simp [writeFile, statFile, h]
    · simp [writeFile, statFile, hr, ih]

/-- String append is left-cancellative. -/
theorem string_append_left_cancel {a b c : String} (h : a ++ b = a ++ c) : b = c := by
  have hd : a.data ++ b.data = a.data ++ c.data := by
    rw [← String.data_append, ← String.data_append, h]
  exact String.ext (List.append_cancel_left hd)

/-- The two artifact paths of one key are distinct files. -/
theorem fragPath_ne_jsonPath (k : String) :
    pathJoin FRAGMENTS_DIR (k ++ ".frag") ≠ pathJoin FRAGMENTS_DIR (k ++ ".json") := by
  intro h
  unfold pathJoin at h
  have h1 : k ++ ".frag" = k ++ ".json" := string_append_left_cancel h
  have h2 : (".frag" : String) = ".json" := string_append_left_cancel h1
  exact absurd h2 (by decide)

/-- When both artifact files exist, the `server.js` convert handler returns
their URLs from the leading stat check and touches no collaborator. -/
theorem srvConvertIfc_shortCircuit (sha256hex : String → String) (eng : Engine)
    (fs : FS) (n : String) (files : Option (Option Bytes))
    (h : ((statFile fs (srvConvertPaths sha256hex n).fragPath).isSome &&
          (statFile fs (srvConvertPaths sha256hex n).jsonPath).isSome) = true) :
    srvConvertIfc sha256hex eng fs n files =
      pureConv
        { status := 200, success := true
          fragUrl := some ("/fragments/" ++ (srvConvertPaths sha256hex n).hash ++ ".frag")
          jsonUrl := some ("/fragments/" ++ (srvConvertPaths sha256hex n).hash ++ ".json") }
        fs := by
  unfold srvConvertIfc
  simp only [h, if_true]


/-- The two target paths of one `server.js` convert request are distinct. -/
theorem srvConvertPaths_ne (sha256hex : String → String) (n : String) :
    (srvConvertPaths sha256hex n).fragPath ≠ (srvConvertPaths sha256hex n).jsonPath :=
  fragPath_ne_jsonPath (getFileHash sha256hex n)

/-- A successful `server.js` convert response carries status 200 and the two
URLs, and leaves both artifact files present. -/
theorem srvConvertIfc_success (sha256hex : String → String) (eng : Engine)
    (fs : FS) (n : String) (files : Option (Option Bytes))
    (h : (srvConvertIfc sha256hex eng fs n files).resp.success = true) :
    (srvConvertIfc sha256hex eng fs n files).resp =
      { status := 200, success := true
        fragUrl := some ("/fragments/" ++ (srvConvertPaths sha256hex n).hash ++ ".frag")
        jsonUrl := some ("/fragments/" ++ (srvConvertPaths sha256hex n).hash ++ ".json") } ∧
    (statFile (srvConvertIfc sha256hex eng fs n files).fs
        (srvConvertPaths sha256hex n).fragPath).isSome = true ∧
    (statFile (srvConvertIfc sha256hex eng fs n files).fs
        (srvConvertPaths sha256hex n).jsonPath).isSome = true := by
  by_cases hboth : ((statFile fs (srvConvertPaths sha256hex n).fragPath).isSome &&
      (statFile fs (srvConvertPaths sha256hex n).jsonPath).isSome) = true
  · rw [srvConvertIfc_shortCircuit sha256hex eng fs n files hboth]
    rw [Bool.and_eq_true] at hboth
    exact ⟨rfl, hboth.1, hboth.2⟩
  · rcases files with _ | ifc
    · exfalso
      simp only [srvConvertIfc, hboth, if_false, pureConv] at h
      exact Bool.false_ne_true h
    · rcases ifc with _ | d
      · exfalso
        simp only [srvConvertIfc, hboth, if_false, pureConv] at h
        exact Bool.false_ne_true h
      · cases hload : eng.loadExc d with
        | some m =>
          exfalso
          simp only [srvConvertIfc, hboth, if_false, hload, pureConv] at h
          exact Bool.false_ne_true h
        | none =>
          cases hexp : eng.exportExc d with
          | some m =>
            exfalso
            simp only [srvConvertIfc, hboth, if_false, hload, hexp, pureConv] at h
            exact Bool.false_ne_true h
          | none =>
            have hne := srvConvertPaths_ne sha256hex n
            simp only [srvConvertIfc, hboth, if_false, hload, hexp, pureConv]
            refine ⟨rfl, ?_, ?_⟩
            · rw [if_neg Bool.false_ne_true]
              rw [statFile_writeFile_ne _ _ _ _ (Ne.symm hne), statFile_writeFile_same]
              rfl
            · rw [if_neg Bool.false_ne_true]
              rw [statFile_writeFile_same]
              rfl

/-- The two target paths of one refactored convert request are distinct. -/
theorem getFilePaths_ne (n : String) :
    (getFilePaths n).fragPath ≠ (getFilePaths n).jsonPath :=
  fragPath_ne_jsonPath n

/-- When the body is valid and both artifact files exist, the refactored
convert handler returns their URLs from `checkFilesExist` and touches no
collaborator. -/
theorem p0ConvertIfc_shortCircuit (eng : Engine) (fetch : String → FetchOutcome)
    (fs : FS) (n url : String) (hv : ¬(n = "" ∨ url = ""))
    (h : ((statFile fs (getFilePaths n).fragPath).isSome &&
          (statFile fs (getFilePaths n).jsonPath).isSome) = true) :
    p0ConvertIfc eng fetch fs ⟨some n, some url⟩ =
      pureConv
        { status := 200, success := true
          fragUrl := some (getFilePaths n).fragUrl
          jsonUrl := some (getFilePaths n).jsonUrl } fs := by
  simp only [p0ConvertIfc, checkFilesExist, hv, if_false, h, if_true]

/-- A successful refactored convert response carries status 200 and the two
URLs, leaves both artifact files present, and can only arise from a valid
body. -/
theorem p0ConvertIfc_success (eng : Engine) (fetch : String → FetchOutcome)
    (fs : FS) (n url : String)
    (h : (p0ConvertIfc eng fetch fs ⟨some n, some url⟩).resp.success = true) :
    (p0ConvertIfc eng fetch fs ⟨some n, some url⟩).resp =
      { status := 200, success := true
        fragUrl := some (getFilePaths n).fragUrl
        jsonUrl := some (getFilePaths n).jsonUrl } ∧
    (statFile (p0ConvertIfc eng fetch fs ⟨some n, some url⟩).fs
        (getFilePaths n).fragPath).isSome = true ∧
    (statFile (p0ConvertIfc eng fetch fs ⟨some n, some url⟩).fs
        (getFilePaths n).jsonPath).isSome = true ∧
    ¬(n = "" ∨ url = "") := by
  by_cases hv : (n = "" ∨ url = "")
  · exfalso
    simp only [p0ConvertIfc, hv, if_true, pureConv] at h
    exact Bool.false_ne_true h
  · by_cases hboth : ((statFile fs (getFilePaths n).fragPath).isSome &&
        (statFile fs (getFilePaths n).jsonPath).isSome) = true
    · rw [p0ConvertIfc_shortCircuit eng fetch fs n url hv hboth]
      rw [Bool.and_eq_true] at hboth
      exact ⟨rfl, hboth.1, hboth.2, hv⟩
    · cases hf : fetchIfcFile (fetch url) with
      | error m =>
        exfalso
        simp only [p0ConvertIfc, checkFilesExist, hv, if_false, hboth, hf, pureConv] at h
        exact Bool.false_ne_true h
      | ok d =>
        cases hload : eng.loadExc d with
        | some m =>
          exfalso
          simp only [p0ConvertIfc, checkFilesExist, hv, if_false, hboth, hf, hload,
            pureConv] at h
          exact Bool.false_ne_true h
        | none =>
          cases hexp : eng.exportExc d with
          | some m =>
            exfalso
            simp only [p0ConvertIfc, checkFilesExist, hv, if_false, hboth, hf, hload,
              hexp, pureConv] at h
            exact Bool.false_ne_true h
          | none =>
            have hne := getFilePaths_ne n
            simp only [p0ConvertIfc, checkFilesExist, hv, if_false, hboth, hf, hload,
              hexp, pureConv]
            refine ⟨rfl, ?_, ?_, not_false⟩
            · rw [if_neg Bool.false_ne_true]
              rw [statFile_writeFile_ne _ _ _ _ (Ne.symm hne), statFile_writeFile_same]
              rfl
            · rw [if_neg Bool.false_ne_true]
              rw [statFile_writeFile_same]
              rfl

/-- Two unequal booleans never conjoin to true. -/
theorem bool_ne_and_false {a b : Bool} (h : a ≠ b) : (a && b) = false := by
  cases a <;> cases b <;> simp_all

/-- The Check handler and the Upload handler of `server.js` compute the same
hash and paths. -/
theorem srvCheckPaths_eq_upload (sha256hex : String → String) (n : String) :
    srvCheckPaths sha256hex n = srvUploadPaths sha256hex n := rfl

/-- The Upload handler and the Convert handler of `server.js` compute the
same hash and paths. -/
theorem srvUploadPaths_eq_convert (sha256hex : String → String) (n : String) :
    srvUploadPaths sha256hex n = srvConvertPaths sha256hex n := rfl

/-- C1: both-or-absent — whenever exactly one of `{k}.frag`, `{k}.json`
exists on disk, the `server.js` Check handler answers `{success:false}` with
HTTP 200 instead of serving the partial pair, and in the refactored variant
`checkFilesExist` does not report the pair present, so its Check handler
answers `{success:false}` as well. -/
theorem c1_partial_pair_reported_absent (sha256hex : String → String) (fs : FS)
    (n : String) :
    ((statFile fs (srvCheckPaths sha256hex n).fragPath).isSome ≠
        (statFile fs (srvCheckPaths sha256hex n).jsonPath).isSome →
      (srvGetFragments sha256hex fs n).resp = { status := 200, success := false }) ∧
    ((statFile fs (getFilePaths n).fragPath).isSome ≠
        (statFile fs (getFilePaths n).jsonPath).isSome →
      ((checkFilesExist fs (getFilePaths n).fragPath (getFilePaths n).jsonPath).1 &&
          (checkFilesExist fs (getFilePaths n).fragPath (getFilePaths n).jsonPath).2) = false ∧
      (p0GetFragments fs n).resp = { status := 200, success := false }) := by
  constructor
  · intro hne
    have hand := bool_ne_and_false hne
    unfold srvGetFragments
    simp only [hand]
    rw [if_neg Bool.false_ne_true]
  · intro hne
    have hand := bool_ne_and_false hne
    refine ⟨hand, ?_⟩
    unfold p0GetFragments checkFilesExist
    simp only [checkFilesExist] at hand
    simp only [hand]
    rw [if_neg Bool.false_ne_true]

/-- Witness for C1 at a concrete partial pair: only the `.frag` file of key
`a` exists, and both Check handlers answer `{success:false}`. -/
theorem c1_partial_pair_reported_absent_witness :
    (srvGetFragments (fun s => s) [(pathJoin FRAGMENTS_DIR ("a" ++ ".frag"), [7])] "a").resp =
      { status := 200, success := false } ∧
    (p0GetFragments [(pathJoin FRAGMENTS_DIR ("a" ++ ".frag"), [7])] "a").resp =
      { status := 200, success := false } :=
  ⟨(c1_partial_pair_reported_absent (fun s => s)
      [(pathJoin FRAGMENTS_DIR ("a" ++ ".frag"), [7])] "a").1 (by decide),
   ((c1_partial_pair_reported_absent (fun s => s)
      [(pathJoin FRAGMENTS_DIR ("a" ++ ".frag"), [7])] "a").2 (by decide)).2⟩

/-- C4: failing input for release-on-every-exit-path — in both variants, a
convert request on an uncached name whose model load throws reaches the catch
handler: the engine was initialized, the request answers 500, and neither
`fragments.dispose()` nor `components.dispose()` is ever called, because the
dispose calls sit on the success path only and no structured cleanup exists. -/
theorem c4_dispose_skipped_when_load_throws :
    srvConvertIfc (fun s => s)
        ⟨fun _ => some ("load failed"), fun _ => none, fun _ => [], fun _ => ""⟩
        [] "model" (some (some [1])) =
      { resp := { status := 500, success := false
                  error := some ("Server error during IFC conversion") }
        fs := [], fetchAttempted := false, engineInit := true, loadInvoked := true
        fragmentsDisposed := false, componentsDisposed := false } ∧
    p0ConvertIfc
        ⟨fun _ => some ("load failed"), fun _ => none, fun _ => [], fun _ => ""⟩
        (fun _ => Except.ok ⟨true, "OK", [1]⟩) []
        ⟨some ("model"), some ("src-url")⟩ =
      { resp := { status := 500, success := false
                  error := some ("Server error during IFC conversion: load failed") }
        fs := [], fetchAttempted := true, engineInit := true, loadInvoked := true
        fragmentsDisposed := false, componentsDisposed := false } := by
  constructor <;> rfl

/-- C5: missing-file rejection — an upload whose payload lacks `req.files`,
the fragment file, or the properties file is answered 400 with
`success:false` and `Missing files`, and the cache directory is untouched, in
both variants. -/
theorem c5_missing_upload_file_rejected (sha256hex : String → String) (fs : FS)
    (n : String) (fr j : Option Bytes) :
    srvPostFragments sha256hex fs n none =
      ⟨{ status := 400, success := false, error := some ("Missing files") }, fs⟩ ∧
    srvPostFragments sha256hex fs n (some ⟨none, j⟩) =
      ⟨{ status := 400, success := false, error := some ("Missing files") }, fs⟩ ∧
    srvPostFragments sha256hex fs n (some ⟨fr, none⟩) =
      ⟨{ status := 400, success := false, error := some ("Missing files") }, fs⟩ ∧
    p0PostFragments fs n none =
      ⟨{ status := 400, success := false, error := some ("Missing files") }, fs⟩ ∧
    p0PostFragments fs n (some ⟨none, j⟩) =
      ⟨{ status := 400, success := false, error := some ("Missing files") }, fs⟩ ∧
    p0PostFragments fs n (some ⟨fr, none⟩) =
      ⟨{ status := 400, success := false, error := some ("Missing files") }, fs⟩ := by
  refine ⟨rfl, ?_, ?_, rfl, ?_, ?_⟩
  · cases j <;> rfl
  · cases fr <;> rfl
  · cases j <;> rfl
  · cases fr <;> rfl

/-- C7: key derivation is deterministic — two evaluations of `getFileHash` on
the same name agree — and the Check, Upload, and Convert handlers of
`server.js` compute identical hash and identical on-disk paths for a given
name, so all three operations address the same artifact pair (the refactored
variant routes all three endpoints through the single `getFilePaths`). -/
theorem c7_key_derivation_deterministic_and_shared (sha256hex : String → String)
    (n : String) :
    getFileHash sha256hex n = getFileHash sha256hex n ∧
    srvCheckPaths sha256hex n = srvUploadPaths sha256hex n ∧
    srvUploadPaths sha256hex n = srvConvertPaths sha256hex n ∧
    (srvCheckPaths sha256hex n).hash = getFileHash sha256hex n :=
  ⟨rfl, rfl, rfl, rfl⟩

/-- C10: the Check endpoint never modifies the cache directory — after a GET
`/api/fragments/:filename` request the filesystem equals the one before it,
on every path of the handler, in both variants. -/
theorem c10_check_is_read_only (sha256hex : String → String) (fs : FS) (n : String) :
    (srvGetFragments sha256hex fs n).fs = fs ∧ (p0GetFragments fs n).fs = fs := by
  constructor
  · simp only [srvGetFragments]
    split <;> rfl
  · simp only [p0GetFragments]
    split <;> rfl

/-- C6: upload round-trip — uploading both files for a name succeeds with the
two URLs, a Check for the same name afterwards succeeds with the same URLs,
and the bytes stored at `{key}.frag` and `{key}.json` are exactly the
uploaded bytes, in both variants. -/
theorem c6_upload_roundtrip (sha256hex : String → String) (fs : FS) (n : String)
    (fragB jsonB : Bytes) :
    (srvPostFragments sha256hex fs n (some ⟨some fragB, some jsonB⟩)).resp =
      { status := 200, success := true
        fragUrl := some ("/fragments/" ++ (srvUploadPaths sha256hex n).hash ++ ".frag")
        jsonUrl := some ("/fragments/" ++ (srvUploadPaths sha256hex n).hash ++ ".json") } ∧
    (srvGetFragments sha256hex
        (srvPostFragments sha256hex fs n (some ⟨some fragB, some jsonB⟩)).fs n).resp =
      { status := 200, success := true
        fragUrl := some ("/fragments/" ++ (srvUploadPaths sha256hex n).hash ++ ".frag")
        jsonUrl := some ("/fragments/" ++ (srvUploadPaths sha256hex n).hash ++ ".json") } ∧
    statFile (srvPostFragments sha256hex fs n (some ⟨some fragB, some jsonB⟩)).fs
        (srvUploadPaths sha256hex n).fragPath = some fragB ∧
    statFile (srvPostFragments sha256hex fs n (some ⟨some fragB, some jsonB⟩)).fs
        (srvUploadPaths sha256hex n).jsonPath = some jsonB ∧
    (p0PostFragments fs n (some ⟨some fragB, some jsonB⟩)).resp =
      { status := 200, success := true
        fragUrl := some ((getFilePaths n).fragUrl)
        jsonUrl := some ((getFilePaths n).jsonUrl) } ∧
    (p0GetFragments (p0PostFragments fs n (some ⟨some fragB, some jsonB⟩)).fs n).resp =
      { status := 200, success := true
        fragUrl := some ((getFilePaths n).fragUrl)
        jsonUrl := some ((getFilePaths n).jsonUrl) } ∧
    statFile (p0PostFragments fs n (some ⟨some fragB, some jsonB⟩)).fs
        (getFilePaths n).fragPath = some fragB ∧
    statFile (p0PostFragments fs n (some ⟨some fragB, some jsonB⟩)).fs
        (getFilePaths n).jsonPath = some jsonB := by
  have hneS : (srvUploadPaths sha256hex n).fragPath ≠ (srvUploadPaths sha256hex n).jsonPath :=
    fragPath_ne_jsonPath (getFileHash sha256hex n)
  have hneP := getFilePaths_ne n
  have hfsS : (srvPostFragments sha256hex fs n (some ⟨some fragB, some jsonB⟩)).fs =
      writeFile (writeFile fs (srvUploadPaths sha256hex n).fragPath fragB)
        (srvUploadPaths sha256hex n).jsonPath jsonB := rfl
  have hfsP : (p0PostFragments fs n (some ⟨some fragB, some jsonB⟩)).fs =
      writeFile (writeFile fs (getFilePaths n).fragPath fragB)
        (getFilePaths n).jsonPath jsonB := rfl
  have hstatS1 : statFile (srvPostFragments sha256hex fs n (some ⟨some fragB, some jsonB⟩)).fs
      (srvUploadPaths sha256hex n).fragPath = some fragB := by
    rw [hfsS, statFile_writeFile_ne _ _ _ _ (Ne.symm hneS), statFile_writeFile_same]
  have hstatS2 : statFile (srvPostFragments sha256hex fs n (some ⟨some fragB, some jsonB⟩)).fs
      (srvUploadPaths sha256hex n).jsonPath = some jsonB := by
    rw [hfsS, statFile_writeFile_same]
  have hstatP1 : statFile (p0PostFragments fs n (some ⟨some fragB, some jsonB⟩)).fs
      (getFilePaths n).fragPath = some fragB := by
    rw [hfsP, statFile_writeFile_ne _ _ _ _ (Ne.symm hneP), statFile_writeFile_same]
  have hstatP2 : statFile (p0PostFragments fs n (some ⟨some fragB, some jsonB⟩)).fs
      (getFilePaths n).jsonPath = some jsonB := by
    rw [hfsP, statFile_writeFile_same]
  refine ⟨rfl, ?_, hstatS1, hstatS2, rfl, ?_, hstatP1, hstatP2⟩
  · simp only [srvGetFragments, srvCheckPaths_eq_upload, hstatS1, hstatS2,
      Option.isSome_some, Bool.and_self, if_true]
  · simp only [p0GetFragments, checkFilesExist, hstatP1, hstatP2,
      Option.isSome_some, Bool.and_self, if_true]

/-- C9: in the multipart Convert endpoint of `server.js` the missing-input
check runs only after the cache short-circuit — when the pair is present, a
request with no IFC file (no `req.files` at all, or no `ifcFile` in it) is
answered 200 with the cached URLs, and when the pair is absent the same
request is answered 400. -/
theorem c9_missing_check_after_cache (sha256hex : String → String) (eng : Engine)
    (fs : FS) (n : String) :
    (((statFile fs (srvConvertPaths sha256hex n).fragPath).isSome &&
        (statFile fs (srvConvertPaths sha256hex n).jsonPath).isSome) = true →
      srvConvertIfc sha256hex eng fs n none =
        pureConv
          { status := 200, success := true
            fragUrl := some ("/fragments/" ++ (srvConvertPaths sha256hex n).hash ++ ".frag")
            jsonUrl := some ("/fragments/" ++ (srvConvertPaths sha256hex n).hash ++ ".json") }
          fs ∧
      srvConvertIfc sha256hex eng fs n (some none) =
        pureConv
          { status := 200, success := true
            fragUrl := some ("/fragments/" ++ (srvConvertPaths sha256hex n).hash ++ ".frag")
            jsonUrl := some ("/fragments/" ++ (srvConvertPaths sha256hex n).hash ++ ".json") }
          fs) ∧
    (((statFile fs (srvConvertPaths sha256hex n).fragPath).isSome &&
        (statFile fs (srvConvertPaths sha256hex n).jsonPath).isSome) = false →
      srvConvertIfc sha256hex eng fs n none =
        pureConv { status := 400, success := false, error := some ("Missing IFC file") } fs ∧
      srvConvertIfc sha256hex eng fs n (some none) =
        pureConv { status := 400, success := false, error := some ("Missing IFC file") } fs) := by
  constructor
  · intro h
    exact ⟨srvConvertIfc_shortCircuit sha256hex eng fs n none h,
           srvConvertIfc_shortCircuit sha256hex eng fs n (some none) h⟩
  · intro h
    constructor
    · simp only [srvConvertIfc, h]
      rw [if_neg Bool.false_ne_true]
    · simp only [srvConvertIfc, h]
      rw [if_neg Bool.false_ne_true]

/-- Witness for C9: with the pair for key `a` on disk, a convert request
without an IFC file succeeds with the cached URLs; on an empty cache the same
request is answered 400. -/
theorem c9_missing_check_after_cache_witness :
    srvConvertIfc (fun s => s)
        ⟨fun _ => none, fun _ => none, fun _ => [], fun _ => ""⟩
        [(pathJoin FRAGMENTS_DIR ("a" ++ ".frag"), [1]),
         (pathJoin FRAGMENTS_DIR ("a" ++ ".json"), [2])] "a" none =
      pureConv
        { status := 200, success := true
          fragUrl := some ("/fragments/" ++ (srvConvertPaths (fun s => s) "a").hash ++ ".frag")
          jsonUrl := some ("/fragments/" ++ (srvConvertPaths (fun s => s) "a").hash ++ ".json") }
        [(pathJoin FRAGMENTS_DIR ("a" ++ ".frag"), [1]),
         (pathJoin FRAGMENTS_DIR ("a" ++ ".json"), [2])] ∧
    srvConvertIfc (fun s => s)
        ⟨fun _ => none, fun _ => none, fun _ => [], fun _ => ""⟩ [] "a" none =
      pureConv { status := 400, success := false, error := some ("Missing IFC file") } [] :=
  ⟨((c9_missing_check_after_cache (fun s => s)
      ⟨fun _ => none, fun _ => none, fun _ => [], fun _ => ""⟩
      [(pathJoin FRAGMENTS_DIR ("a" ++ ".frag"), [1]),
       (pathJoin FRAGMENTS_DIR ("a" ++ ".json"), [2])] "a").1 (by decide)).1,
   ((c9_missing_check_after_cache (fun s => s)
      ⟨fun _ => none, fun _ => none, fun _ => [], fun _ => ""⟩ [] "a").2 (by decide)).1⟩

/-- C3: fetch-failure isolation — when the artifact pair is absent and the
source fetch fails (network rejection or non-ok HTTP status), the refactored
convert request answers 500 carrying the wrapped fetch error message, the
cache directory is unchanged (no partial pair is written), and the engine is
neither initialized nor asked to load; moreover a non-ok HTTP status produces
the distinct `Failed to fetch IFC file` error kind. -/
theorem c3_fetch_failure_isolation (eng : Engine) (fetch : String → FetchOutcome)
    (fs : FS) (n url msg : String)
    (hv : ¬(n = "" ∨ url = ""))
    (habs : ((statFile fs (getFilePaths n).fragPath).isSome &&
        (statFile fs (getFilePaths n).jsonPath).isSome) = false)
    (hf : fetchIfcFile (fetch url) = Except.error msg) :
    p0ConvertIfc eng fetch fs ⟨some n, some url⟩ =
      { pureConv
          { status := 500, success := false
            error := some ("Server error during IFC conversion: " ++ msg) } fs with
        fetchAttempted := true } ∧
    (∀ st d, fetchIfcFile (Except.ok ⟨false, st, d⟩) =
      Except.error ("Failed to fetch IFC file: " ++ st)) := by
  constructor
  · simp only [p0ConvertIfc, checkFilesExist, hv, if_false, habs, hf]
    rw [if_neg Bool.false_ne_true]
  · intro st d
    rfl

/-- Witness for C3: an empty cache, a fetch answering a non-ok status, and
the resulting 500 with no write and no engine activity. -/
theorem c3_fetch_failure_isolation_witness :
    p0ConvertIfc ⟨fun _ => none, fun _ => none, fun _ => [], fun _ => ""⟩
        (fun _ => Except.ok ⟨false, "Not Found", []⟩) [] ⟨some ("a"), some ("u")⟩ =
      { pureConv
          { status := 500, success := false
            error := some ("Server error during IFC conversion: " ++
              ("Failed to fetch IFC file: " ++ "Not Found")) } [] with
        fetchAttempted := true } :=
  (c3_fetch_failure_isolation ⟨fun _ => none, fun _ => none, fun _ => [], fun _ => ""⟩
    (fun _ => Except.ok ⟨false, "Not Found", []⟩) [] "a" "u"
    ("Failed to fetch IFC file: " ++ "Not Found") (by decide) (by decide) rfl).1

/-- C2: idempotent convert — when the artifact pair for a name already exists
on disk, a convert request returns the cached URLs immediately with no fetch,
no engine initialization and no load (both variants); consequently, when a
convert call succeeds, repeating it with the same name and the same source
returns the very same response with no fetch, no conversion work and an
unchanged cache. -/
theorem c2_convert_idempotent (sha256hex : String → String) (eng : Engine)
    (fetch : String → FetchOutcome) (fs : FS) (n url : String)
    (files : Option (Option Bytes)) :
    (((statFile fs (srvConvertPaths sha256hex n).fragPath).isSome &&
        (statFile fs (srvConvertPaths sha256hex n).jsonPath).isSome) = true →
      srvConvertIfc sha256hex eng fs n files =
        pureConv
          { status := 200, success := true
            fragUrl := some ("/fragments/" ++ (srvConvertPaths sha256hex n).hash ++ ".frag")
            jsonUrl := some ("/fragments/" ++ (srvConvertPaths sha256hex n).hash ++ ".json") }
          fs) ∧
    (¬(n = "" ∨ url = "") →
      ((statFile fs (getFilePaths n).fragPath).isSome &&
        (statFile fs (getFilePaths n).jsonPath).isSome) = true →
      p0ConvertIfc eng fetch fs ⟨some n, some url⟩ =
        pureConv
          { status := 200, success := true
            fragUrl := some ((getFilePaths n).fragUrl)
            jsonUrl := some ((getFilePaths n).jsonUrl) } fs) ∧
    ((srvConvertIfc sha256hex eng fs n files).resp.success = true →
      srvConvertIfc sha256hex eng (srvConvertIfc sha256hex eng fs n files).fs n files =
        pureConv (srvConvertIfc sha256hex eng fs n files).resp
          (srvConvertIfc sha256hex eng fs n files).fs) ∧
    ((p0ConvertIfc eng fetch fs ⟨some n, some url⟩).resp.success = true →
      p0ConvertIfc eng fetch (p0ConvertIfc eng fetch fs ⟨some n, some url⟩).fs
          ⟨some n, some url⟩ =
        pureConv (p0ConvertIfc eng fetch fs ⟨some n, some url⟩).resp
          (p0ConvertIfc eng fetch fs ⟨some n, some url⟩).fs) := by
  refine ⟨?_, ?_, ?_, ?_⟩
  · intro h
    exact srvConvertIfc_shortCircuit sha256hex eng fs n files h
  · intro hv h
    exact p0ConvertIfc_shortCircuit eng fetch fs n url hv h
  · intro h
    obtain ⟨hresp, h1, h2⟩ := srvConvertIfc_success sha256hex eng fs n files h
    rw [srvConvertIfc_shortCircuit sha256hex eng
        (srvConvertIfc sha256hex eng fs n files).fs n files
        (by rw [Bool.and_eq_true]; exact ⟨h1, h2⟩), hresp]
  · intro h
    obtain ⟨hresp, h1, h2, hv⟩ := p0ConvertIfc_success eng fetch fs n url h
    rw [p0ConvertIfc_shortCircuit eng fetch
        (p0ConvertIfc eng fetch fs ⟨some n, some url⟩).fs n url hv
        (by rw [Bool.and_eq_true]; exact ⟨h1, h2⟩), hresp]

/-- Witness for C2 at concrete inputs: a cache already holding the pair for
key `a`, a trivial engine and an always-ok fetch — the first two parts give
the immediate cached answer, the last two give the unchanged repeat of a
successful call. -/
theorem c2_convert_idempotent_witness :
    (srvConvertIfc (fun s => s) ⟨fun _ => none, fun _ => none, fun _ => [5], fun _ => "p"⟩
        [(pathJoin FRAGMENTS_DIR ("a" ++ ".frag"), [1]),
         (pathJoin FRAGMENTS_DIR ("a" ++ ".json"), [2])] "a" (some (some [9])) =
      pureConv
        { status := 200, success := true
          fragUrl := some ("/fragments/" ++ (srvConvertPaths (fun s => s) "a").hash ++ ".frag")
          jsonUrl := some ("/fragments/" ++ (srvConvertPaths (fun s => s) "a").hash ++ ".json") }
        [(pathJoin FRAGMENTS_DIR ("a" ++ ".frag"), [1]),
         (pathJoin FRAGMENTS_DIR ("a" ++ ".json"), [2])]) ∧
    (p0ConvertIfc ⟨fun _ => none, fun _ => none, fun _ => [5], fun _ => "p"⟩
        (fun _ => Except.ok ⟨true, "OK", [3]⟩)
        [(pathJoin FRAGMENTS_DIR ("a" ++ ".frag"), [1]),
         (pathJoin FRAGMENTS_DIR ("a" ++ ".json"), [2])] ⟨some ("a"), some ("u")⟩ =
      pureConv
        { status := 200, success := true
          fragUrl := some ((getFilePaths "a").fragUrl)
          jsonUrl := some ((getFilePaths "a").jsonUrl) }
        [(pathJoin FRAGMENTS_DIR ("a" ++ ".frag"), [1]),
         (pathJoin FRAGMENTS_DIR ("a" ++ ".json"), [2])]) ∧
    (srvConvertIfc (fun s => s) ⟨fun _ => none, fun _ => none, fun _ => [5], fun _ => "p"⟩
        (srvConvertIfc (fun s => s) ⟨fun _ => none, fun _ => none, fun _ => [5], fun _ => "p"⟩
          [] "a" (some (some [9]))).fs "a" (some (some [9])) =
      pureConv
        (srvConvertIfc (fun s => s) ⟨fun _ => none, fun _ => none, fun _ => [5], fun _ => "p"⟩
          [] "a" (some (some [9]))).resp
        (srvConvertIfc (fun s => s) ⟨fun _ => none, fun _ => none, fun _ => [5], fun _ => "p"⟩
          [] "a" (some (some [9]))).fs) ∧
    (p0ConvertIfc ⟨fun _ => none, fun _ => none, fun _ => [5], fun _ => "p"⟩
        (fun _ => Except.ok ⟨true, "OK", [3]⟩)
        (p0ConvertIfc ⟨fun _ => none, fun _ => none, fun _ => [5], fun _ => "p"⟩
          (fun _ => Except.ok ⟨true, "OK", [3]⟩) [] ⟨some ("a"), some ("u")⟩).fs
        ⟨some ("a"), some ("u")⟩ =
      pureConv
        (p0ConvertIfc ⟨fun _ => none, fun _ => none, fun _ => [5], fun _ => "p"⟩
          (fun _ => Except.ok ⟨true, "OK", [3]⟩) [] ⟨some ("a"), some ("u")⟩).resp
        (p0ConvertIfc ⟨fun _ => none, fun _ => none, fun _ => [5], fun _ => "p"⟩
          (fun _ => Except.ok ⟨true, "OK", [3]⟩) [] ⟨some ("a"), some ("u")⟩).fs) :=
  ⟨(c2_convert_idempotent (fun s => s)
      ⟨fun _ => none, fun _ => none, fun _ => [5], fun _ => "p"⟩
      (fun _ => Except.ok ⟨true, "OK", [3]⟩)
      [(pathJoin FRAGMENTS_DIR ("a" ++ ".frag"), [1]),
       (pathJoin FRAGMENTS_DIR ("a" ++ ".json"), [2])] "a" "u" (some (some [9]))).1
      (by decide),
   ((c2_convert_idempotent (fun s => s)
      ⟨fun _ => none, fun _ => none, fun _ => [5], fun _ => "p"⟩
      (fun _ => Except.ok ⟨true, "OK", [3]⟩)
      [(pathJoin FRAGMENTS_DIR ("a" ++ ".frag"), [1]),
       (pathJoin FRAGMENTS_DIR ("a" ++ ".json"), [2])] "a" "u" (some (some [9]))).2.1
      (by decide) (by decide)),
   ((c2_convert_idempotent (fun s => s)
      ⟨fun _ => none, fun _ => none, fun _ => [5], fun _ => "p"⟩
      (fun _ => Except.ok ⟨true, "OK", [3]⟩) [] "a" "u" (some (some [9]))).2.2.1
      (by decide)),
   ((c2_convert_idempotent (fun s => s)
      ⟨fun _ => none, fun _ => none, fun _ => [5], fun _ => "p"⟩
      (fun _ => Except.ok ⟨true, "OK", [3]⟩) [] "a" "u" (some (some [9]))).2.2.2
      (by decide))⟩

/-- The uniform envelope property the spec states for every route: the HTTP
status is one of 200, 400, 500; a successful response is a 200 carrying both
URLs; a non-200 response is unsuccessful and carries an error description. -/
def envelopeOk (r : Response) : Prop :=
  (r.status = 200 ∨ r.status = 400 ∨ r.status = 500) ∧
  (r.success = true → r.status = 200 ∧ r.fragUrl.isSome = true ∧ r.jsonUrl.isSome = true) ∧
  (r.status ≠ 200 → r.success = false ∧ r.error.isSome = true)

/-- C8: every route of both variants answers the uniform envelope — success
flag always present, URLs on success, error description with a 400 or 500 —
and in particular a Check for a name whose pair is absent is answered HTTP
200 with `{success:false}`, not an error status. -/
theorem c8_uniform_envelope (sha256hex : String → String) (eng : Engine)
    (fetch : String → FetchOutcome) (fs : FS) (n : String)
    (files : Option UploadFiles) (cf : Option (Option Bytes)) (body : ConvertBody) :
    envelopeOk (srvGetFragments sha256hex fs n).resp ∧
    envelopeOk (srvPostFragments sha256hex fs n files).resp ∧
    envelopeOk (srvConvertIfc sha256hex eng fs n cf).resp ∧
    envelopeOk (p0GetFragments fs n).resp ∧
    envelopeOk (p0PostFragments fs n files).resp ∧
    envelopeOk (p0ConvertIfc eng fetch fs body).resp ∧
    (((statFile fs (srvCheckPaths sha256hex n).fragPath).isSome &&
        (statFile fs (srvCheckPaths sha256hex n).jsonPath).isSome) = false →
      (srvGetFragments sha256hex fs n).resp = { status := 200, success := false }) := by
  refine ⟨?_, ?_, ?_, ?_, ?_, ?_, ?_⟩
  · simp only [srvGetFragments]
    split <;> simp [envelopeOk]
  · rcases files with _ | ⟨fr, j⟩
    · simp [srvPostFragments, envelopeOk]
    · cases fr <;> cases j <;> simp [srvPostFragments, envelopeOk]
  · by_cases hboth : ((statFile fs (srvConvertPaths sha256hex n).fragPath).isSome &&
        (statFile fs (srvConvertPaths sha256hex n).jsonPath).isSome) = true
    · rw [srvConvertIfc_shortCircuit sha256hex eng fs n cf hboth]
      simp [envelopeOk, pureConv]
    · rcases cf with _ | ifc
      · simp [srvConvertIfc, hboth, envelopeOk, pureConv]
      · rcases ifc with _ | d
        · simp [srvConvertIfc, hboth, envelopeOk, pureConv]
        · cases hload : eng.loadExc d with
          | some m => simp [srvConvertIfc, hboth, hload, envelopeOk, pureConv]
          | none =>
            cases hexp : eng.exportExc d with
            | some m => simp [srvConvertIfc, hboth, hload, hexp, envelopeOk, pureConv]
            | none => simp [srvConvertIfc, hboth, hload, hexp, envelopeOk, pureConv]
  · simp only [p0GetFragments]
    split <;> simp [envelopeOk]
  · rcases files with _ | ⟨fr, j⟩
    · simp [p0PostFragments, envelopeOk]
    · cases fr <;> cases j <;> simp [p0PostFragments, envelopeOk]
  · rcases body with ⟨bf, bu⟩
    rcases bf with _ | n2
    · simp [p0ConvertIfc, envelopeOk, pureConv]
    · rcases bu with _ | u2
      · simp [p0ConvertIfc, envelopeOk, pureConv]
      · by_cases hv : (n2 = "" ∨ u2 = "")
        · simp [p0ConvertIfc, hv, envelopeOk, pureConv]
        · by_cases hboth : ((statFile fs (getFilePaths n2).fragPath).isSome &&
              (statFile fs (getFilePaths n2).jsonPath).isSome) = true
          · rw [p0ConvertIfc_shortCircuit eng fetch fs n2 u2 hv hboth]
            simp [envelopeOk, pureConv]
          · cases hf : fetchIfcFile (fetch u2) with
            | error m =>
              simp [p0ConvertIfc, checkFilesExist, hv, hboth, hf, envelopeOk, pureConv]
            | ok d =>
              cases hload : eng.loadExc d with
              | some m =>
                simp [p0ConvertIfc, checkFilesExist, hv, hboth, hf, hload,
                  envelopeOk, pureConv]
              | none =>
                cases hexp : eng.exportExc d with
                | some m =>
                  simp [p0ConvertIfc, checkFilesExist, hv, hboth, hf, hload, hexp,
                    envelopeOk, pureConv]
                | none =>
                  simp [p0ConvertIfc, checkFilesExist, hv, hboth, hf, hload, hexp,
                    envelopeOk, pureConv]
  · intro habs
    simp only [srvGetFragments, habs]
    rw [if_neg Bool.false_ne_true]

/-- Witness for C8 on concrete requests against an empty cache. -/
theorem c8_uniform_envelope_witness :
    envelopeOk (srvGetFragments (fun s => s) [] "a").resp ∧
    envelopeOk (srvPostFragments (fun s => s) [] "a" none).resp ∧
    envelopeOk (srvConvertIfc (fun s => s)
        ⟨fun _ => none, fun _ => none, fun _ => [], fun _ => ""⟩ [] "a" none).resp ∧
    envelopeOk (p0GetFragments [] "a").resp ∧
    envelopeOk (p0PostFragments [] "a" none).resp ∧
    envelopeOk (p0ConvertIfc ⟨fun _ => none, fun _ => none, fun _ => [], fun _ => ""⟩
        (fun _ => Except.ok ⟨true, "OK", []⟩) [] ⟨none, none⟩).resp ∧
    (srvGetFragments (fun s => s) [] "a").resp = { status := 200, success := false } := by
  have h := c8_uniform_envelope (fun s => s)
    ⟨fun _ => none, fun _ => none, fun _ => [], fun _ => ""⟩
    (fun _ => Except.ok ⟨true, "OK", []⟩) [] "a" none none ⟨none, none⟩
  exact ⟨h.1, h.2.1, h.2.2.1, h.2.2.2.1, h.2.2.2.2.1, h.2.2.2.2.2.1,
         h.2.2.2.2.2.2 (by decide)⟩
